import Mathlib

/-!
Verification development for the MAWB audit analyzer.

The definitions below are a shallow embedding of the repository's core
logic: `src/helpers.py` (column-name normalization, column resolution,
MAWB identifier normalization, the zero-denominator percentage policy)
and `src/audit.py` (`run_audit`: filtering, per-identifier rollup,
classification, exception typing, dimensional rollups, bucket views and
KPIs).  Tabular data is modelled as lists of records; monetary amounts
are rationals; dates are opaque `Nat` instants (calendar-month rendering
of ETA values is not modelled, no property below concerns it).  pandas
operations are modelled by their data semantics: `groupby` sorts the
group keys, dict comprehensions keep the last value written for a key,
`sort_values` reorders rows, `where(denom != 0, 0)` is the
zero-denominator-is-zero guard.
-/

/- Batteries marks the rational operations `@[irreducible]`, which blocks
`decide` from evaluating concrete audit rows; the proofs below restore the
default reducibility so that witnesses can be checked by evaluation. -/
set_option allowUnsafeReducibility true in
attribute [semireducible] Rat.add Rat.sub Rat.mul Rat.div Rat.inv Rat.neg Rat.ofScientific

namespace MawbAudit

/-! ### Python character primitives

`str.strip` whitespace, `str.upper`/`str.lower` on ASCII letters, and the
character classes used by `helpers.py`'s regexes. -/

/-- The whitespace characters Python's `str.strip` and the regex class
`\s` remove (ASCII range, which is all the repository's data uses). -/
def pyIsWs (c : Char) : Bool :=
  decide (c = ' ') || decide (c = '\t') || decide (c = '\n') ||
  decide (c = '\r') || decide (c = '\x0b') || decide (c = '\x0c')

/-- Python `str.upper` on one ASCII character. -/
def pyUpperChar (c : Char) : Char :=
  if 'a' ≤ c ∧ c ≤ 'z' then Char.ofNat (c.toNat - 32) else c

/-- Python `str.lower` on one ASCII character. -/
def pyLowerChar (c : Char) : Char :=
  if 'A' ≤ c ∧ c ≤ 'Z' then Char.ofNat (c.toNat + 32) else c

/-- The character class `[0-9A-Z]` of `normalize_mawb`'s stripping regex. -/
def isAln (c : Char) : Bool :=
  c.isDigit || (decide ('A' ≤ c) && decide (c ≤ 'Z'))

/-- `str.strip()`: drop leading and trailing whitespace. -/
def stripL (l : List Char) : List Char :=
  ((l.dropWhile pyIsWs).reverse.dropWhile pyIsWs).reverse

/-- `str.upper()` over a character list. -/
def upperL (l : List Char) : List Char := l.map pyUpperChar

/-! ### `helpers.normalize_mawb` (helpers.py lines 43-59) -/

/-- `str(x).strip().upper()` — the `s` of the source. -/
def trimUpperL (l : List Char) : List Char := upperL (stripL l)

/-- `re.sub(r"[^0-9A-Z]", "", s)` — the `s_alnum` of the source. -/
def alnumL (l : List Char) : List Char := (trimUpperL l).filter isAln

/-- Core of `normalize_mawb` on the character list of the input string:
strip and upper-case; empty or the literal tokens NAN/NONE give the
empty result; keep only `[0-9A-Z]`; an all-digit length-11 result is
split 3+8 around a hyphen; an all-digit length-12 result keeps its last
11 digits (`s_alnum[-11:]`, i.e. drops the leading digit) and is split
the same way; anything else is returned as is. -/
def normalizeL (l : List Char) : List Char :=
  if trimUpperL l = [] ∨ trimUpperL l = "NAN".toList ∨ trimUpperL l = "NONE".toList then
    []
  else if (alnumL l).all Char.isDigit ∧ (alnumL l).length = 11 then
    (alnumL l).take 3 ++ '-' :: (alnumL l).drop 3
  else if (alnumL l).all Char.isDigit ∧ (alnumL l).length = 12 then
    ((alnumL l).drop 1).take 3 ++ '-' :: ((alnumL l).drop 1).drop 3
  else alnumL l

/-- `normalize_mawb` on a string input (the `str(x)` path of the source). -/
def normalize_mawb_str (x : String) : String := ⟨normalizeL x.toList⟩

/-- `normalize_mawb(x)`: `None` maps to the empty string, a string is
normalized by `normalize_mawb_str`. -/
def normalize_mawb : Option String → String
  | none => ""
  | some x => normalize_mawb_str x

example : normalize_mawb (some "99934022122") = "999-34022122" := by decide
example : normalize_mawb (some "999-34022122") = "999-34022122" := by decide
example : normalize_mawb (some "  abc ") = "ABC" := by decide
example : normalize_mawb none = "" := by decide
example : normalize_mawb (some "NA N") = "NAN" := by decide
example : normalize_mawb (some "NAN") = "" := by decide

/-! ### `helpers.norm_colname` and `helpers.find_first_col`
(helpers.py lines 9-19) -/

/-- `norm_colname(s)`: strip, lower-case, and remove every run of
whitespace, underscores and hyphens (the regex `[\s_\-]+` replaced by
the empty string). -/
def norm_colname (s : String) : String :=
  ⟨((stripL s.toList).map pyLowerChar).filter
    (fun c => !(pyIsWs c || decide (c = '_') || decide (c = '-')))⟩

/-- The table columns whose normalized name equals the candidate's
normalized name, in column order. -/
def colsMatching (cols : List String) (cand : String) : List String :=
  cols.filter (fun c => decide (norm_colname c = norm_colname cand))

/-- `find_first_col(df, candidates)`: the source builds
`{norm_colname(c): c for c in df.columns}` — a dict in which a later
column overwrites an earlier one with the same normalized name, so a
key's value is the LAST matching column — then returns the mapping's
value for the first candidate whose normalized name is a key, and `""`
when no candidate matches. -/
def find_first_col (cols : List String) : List String → String
  | [] => ""
  | cand :: rest =>
    match (colsMatching cols cand).getLast? with
    | some v => v
    | none => find_first_col cols rest

example : find_first_col ["Charge Code", "Master AWB"] ["MAWB", "Master AWB"] =
    "Master AWB" := by decide
example : find_first_col ["a b", "a_b"] ["ab"] = "a_b" := by decide

/-! ### `helpers.pct` (helpers.py lines 39-40) -/

/-- `pct(numer, denom)`: `(numer / denom).where(denom != 0, 0)` — the
quotient where the denominator is nonzero, and exactly `0` where it is
zero. -/
def pct (numer denom : ℚ) : ℚ := if denom = 0 then 0 else numer / denom

/-! ### Data model of the audit (audit.py)

One `BillingLine` is one row of the billing sheet after the column
resolution and normalization block of `run_audit` (audit.py lines
121-143): `mawb` the raw identifier column's value (normalized inside
`runAudit`), amounts already coerced by `safe_numeric`, categorical
fields already defaulted to `"UNKNOWN"`, and `eta` the joined arrival
instant (set by the merge step, lines 193-199). -/

structure BillingLine where
  mawb : String
  cost : ℚ
  sell : ℚ
  client : String
  chargeCode : String
  vendor : String
  eta : Option Nat
  deriving DecidableEq

/-- One row of the per-MAWB summary (audit.py lines 201-239). -/
structure MawbSummary where
  mawb : String
  client : String
  totalCost : ℚ
  totalSell : ℚ
  lineCount : Nat
  eta : Option Nat
  profit : ℚ
  profitMargin : ℚ
  classification : String
  exceptionType : String
  deriving DecidableEq

/-- One row of the client rollup (audit.py lines 243-256). -/
structure ClientSummary where
  client : String
  totalCost : ℚ
  totalSell : ℚ
  lineCount : Nat
  mawbCount : Nat
  latestEta : Option Nat
  profit : ℚ
  profitMargin : ℚ
  deriving DecidableEq

/-- One row of the charge-code or vendor rollup (audit.py lines 282-345):
the aggregation columns plus the pivot of per-MAWB exception flags onto
the dimension (for each observed exception type, the number of distinct
MAWBs touching this dimension value that carry it). -/
structure CodeSummary where
  key : String
  totalCost : ℚ
  totalSell : ℚ
  lineCount : Nat
  mawbCount : Nat
  profit : ℚ
  profitMargin : ℚ
  excCounts : List (String × Nat)
  deriving DecidableEq

/-- One row of the (MAWB, charge code) grain (audit.py lines 347-366). -/
structure CCMawbRow where
  mawb : String
  chargeCode : String
  client : String
  vendor : String
  totalCost : ℚ
  totalSell : ℚ
  eta : Option Nat
  profit : ℚ
  profitMargin : ℚ
  deriving DecidableEq

/-! ### Sorting, as pandas does it

`groupby` emits its group keys in sorted order; `sort_values` reorders
rows by a key.  Insertion sort with a boolean "goes before or ties"
comparator; stability differences are immaterial to the properties
below, which use only membership. -/

def insertBy {α : Type} (le : α → α → Bool) (x : α) : List α → List α
  | [] => [x]
  | y :: ys => if le x y then x :: y :: ys else y :: insertBy le x ys

def sortBy {α : Type} (le : α → α → Bool) (l : List α) : List α :=
  l.foldr (insertBy le) []

/-- Lexicographic strict order on character lists (Python / pandas
string order for the ASCII data at hand). -/
def strLtL : List Char → List Char → Bool
  | [], [] => false
  | [], _ :: _ => true
  | _ :: _, [] => false
  | a :: as, b :: bs =>
    if a.toNat < b.toNat then true
    else if b.toNat < a.toNat then false
    else strLtL as bs

def strLeb (a b : String) : Bool := !(strLtL b.toList a.toList)

/-- Distinct values in sorted order: how `groupby` enumerates keys. -/
def sortedKeys (l : List String) : List String := sortBy strLeb l.dedup

/-! ### `run_audit`: per-MAWB summary (audit.py lines 201-239) -/

/-- The margin-exception label
`f"Margin<{int(low_thr*100)}% or >{int(high_thr*100)}%"` (audit.py line
99); `int()` truncates toward zero. -/
def marginLabel (low_thr high_thr : ℚ) : String :=
  "Margin<" ++ toString ((low_thr * 100).num.tdiv ((low_thr * 100).den : Int)) ++
  "% or >" ++ toString ((high_thr * 100).num.tdiv ((high_thr * 100).den : Int)) ++ "%"

example : marginLabel (3/10) (4/5) = "Margin<30% or >80%" := by decide

/-- `is_closed(r)` (audit.py lines 217-223): `Open` unless both amounts
are positive and the margin lies inside the inclusive band. -/
def is_closed (low_thr high_thr cost sell pm : ℚ) : String :=
  if ¬(cost > 0 ∧ sell > 0) then "Open"
  else if pm < low_thr ∨ pm > high_thr then "Open"
  else "Closed"

/-- `exception_type(r)` (audit.py lines 227-237): first matching rule
wins. -/
def exception_type (low_thr high_thr : ℚ) (label : String)
    (cost sell pm : ℚ) : String :=
  if cost = 0 ∧ sell = 0 then "Cost=Sell=0"
  else if sell = 0 then "Revenue=0"
  else if cost = 0 then "Cost=0"
  else if pm ≠ 0 ∧ (pm < low_thr ∨ pm > high_thr) then label
  else ""

/-- `max` of nullable dates: pandas `max` skips missing values and is
missing only when the whole group is. -/
def optMax (a b : Option Nat) : Option Nat :=
  match a, b with
  | none, b => b
  | some x, none => some x
  | some x, some y => some (max x y)

def etaMax (g : List BillingLine) : Option Nat :=
  g.foldr (fun l acc => optMax l.eta acc) none

/-- `Client=("Client", "first")`: the first row of the group. -/
def firstClient (g : List BillingLine) : String :=
  match g with
  | [] => ""
  | l :: _ => l.client

/-- The aggregated summary row of one MAWB (audit.py lines 202-239):
sums, count, first client, latest ETA, then profit, margin (zero-sell
gives margin 0 via `pct`), classification and exception type. -/
def summarize (low_thr high_thr : ℚ) (lines : List BillingLine)
    (k : String) : MawbSummary :=
  let g := lines.filter (fun l => decide (l.mawb = k))
  let cost := (g.map (·.cost)).sum
  let sell := (g.map (·.sell)).sum
  let profit := sell - cost
  let pm := pct profit sell
  { mawb := k
    client := firstClient g
    totalCost := cost
    totalSell := sell
    lineCount := g.length
    eta := etaMax g
    profit := profit
    profitMargin := pm
    classification := is_closed low_thr high_thr cost sell pm
    exceptionType :=
      exception_type low_thr high_thr (marginLabel low_thr high_thr) cost sell pm }

/-- `summary = df.groupby("MAWB").agg(...)` plus the derived columns:
one row per distinct MAWB, in sorted key order. -/
def summaryOf (low_thr high_thr : ℚ) (lines : List BillingLine) :
    List MawbSummary :=
  (sortedKeys (lines.map (·.mawb))).map (summarize low_thr high_thr lines)

/-! ### Bucket views over the summary (audit.py lines 241, 259-280) -/

/-- `exceptions = summary[summary["Classification"].eq("Open")]`
(audit.py line 241). -/
def exceptionsOf (low_thr high_thr : ℚ) (lines : List BillingLine) :
    List MawbSummary :=
  (summaryOf low_thr high_thr lines).filter
    (fun r => decide (r.classification = "Open"))

/-- Margin outliers (audit.py lines 259-262): out-of-band nonzero
margin, sorted by margin ascending. -/
def marginOutliersOf (low_thr high_thr : ℚ) (lines : List BillingLine) :
    List MawbSummary :=
  sortBy (fun a b => decide (a.profitMargin ≤ b.profitMargin))
    ((summaryOf low_thr high_thr lines).filter
      (fun r => decide ((r.profitMargin < low_thr ∨ r.profitMargin > high_thr) ∧
        r.profitMargin ≠ 0)))

/-- `negative_profit = summary[summary["Profit"] < 0]` sorted by profit
ascending (audit.py line 264). -/
def negativeProfitOf (low_thr high_thr : ℚ) (lines : List BillingLine) :
    List MawbSummary :=
  sortBy (fun a b => decide (a.profit ≤ b.profit))
    ((summaryOf low_thr high_thr lines).filter (fun r => decide (r.profit < 0)))

/-- Two-key descending sort used by the zero buckets
(`sort_values(["Total_Sell", "Total_Cost"], ascending=False)`). -/
def bySellCostDesc (a b : MawbSummary) : Bool :=
  decide (b.totalSell < a.totalSell) ||
  (decide (a.totalSell = b.totalSell) && decide (b.totalCost ≤ a.totalCost))

/-- `zero_margin` (audit.py lines 267-269). -/
def zeroMarginOf (low_thr high_thr : ℚ) (lines : List BillingLine) :
    List MawbSummary :=
  sortBy bySellCostDesc
    ((summaryOf low_thr high_thr lines).filter (fun r => decide (r.profitMargin = 0)))

/-- `zero_profit` (audit.py lines 270-272). -/
def zeroProfitOf (low_thr high_thr : ℚ) (lines : List BillingLine) :
    List MawbSummary :=
  sortBy bySellCostDesc
    ((summaryOf low_thr high_thr lines).filter (fun r => decide (r.profit = 0)))

/-- `both_zero` (audit.py line 274). -/
def bothZeroOf (low_thr high_thr : ℚ) (lines : List BillingLine) :
    List MawbSummary :=
  sortBy (fun a b => strLeb a.mawb b.mawb)
    ((summaryOf low_thr high_thr lines).filter
      (fun r => decide (r.totalSell = 0 ∧ r.totalCost = 0)))

/-- `sell_zero_only` (audit.py lines 275-277). -/
def sellZeroOnlyOf (low_thr high_thr : ℚ) (lines : List BillingLine) :
    List MawbSummary :=
  sortBy (fun a b => decide (b.totalCost ≤ a.totalCost))
    ((summaryOf low_thr high_thr lines).filter
      (fun r => decide (r.totalSell = 0 ∧ r.totalCost > 0)))

/-- `cost_zero_only` (audit.py lines 278-280). -/
def costZeroOnlyOf (low_thr high_thr : ℚ) (lines : List BillingLine) :
    List MawbSummary :=
  sortBy (fun a b => decide (b.totalSell ≤ a.totalSell))
    ((summaryOf low_thr high_thr lines).filter
      (fun r => decide (r.totalCost = 0 ∧ r.totalSell > 0)))

/-! ### Dimensional rollups (audit.py lines 243-345)

The client, charge-code and vendor summaries repeat one aggregation
pattern (sum cost, sum sell, line count, distinct-MAWB count, profit,
margin); the charge-code and vendor summaries additionally merge in a
pivot of the per-MAWB exception flags.  Every MAWB of the pivot's pairs
is a key of `summary` (same underlying lines), so the left merge and the
`fillna(0)` change no aggregation column. -/

/-- The exception type `summary` assigns to a MAWB (the `mawb_flags`
lookup of audit.py line 297). -/
def excTypeOfMawb (summary : List MawbSummary) (m : String) : String :=
  match summary.find? (fun r => decide (r.mawb = m)) with
  | some r => r.exceptionType
  | none => ""

/-- Distinct (MAWB, dimension value) pairs, the
`df[["MAWB", dim]].drop_duplicates()` of audit.py lines 298 and 331. -/
def dimPairs (keyOf : BillingLine → String) (lines : List BillingLine) :
    List (String × String) :=
  (lines.map (fun l => (l.mawb, keyOf l))).dedup

/-- The pivot row for one dimension value: for each exception type
observed across the merged pairs, the number of distinct MAWBs touching
this dimension value that carry it (audit.py lines 301-310, 334-343). -/
def excPivotRow (keyOf : BillingLine → String) (lines : List BillingLine)
    (summary : List MawbSummary) (k : String) : List (String × Nat) :=
  (((dimPairs keyOf lines).map (fun p => excTypeOfMawb summary p.1)).dedup).map
    (fun e => (e, ((dimPairs keyOf lines).filter
      (fun p => decide (p.2 = k) && decide (excTypeOfMawb summary p.1 = e))).length))

/-- One aggregated dimension row (the shared `groupby(dim).agg(...)`
block plus the derived profit/margin columns and the exception pivot). -/
def dimRow (keyOf : BillingLine → String) (lines : List BillingLine)
    (summary : List MawbSummary) (k : String) : CodeSummary :=
  let g := lines.filter (fun l => decide (keyOf l = k))
  let cost := (g.map (·.cost)).sum
  let sell := (g.map (·.sell)).sum
  { key := k
    totalCost := cost
    totalSell := sell
    lineCount := g.length
    mawbCount := ((g.map (·.mawb)).dedup).length
    profit := sell - cost
    profitMargin := pct (sell - cost) sell
    excCounts := excPivotRow keyOf lines summary k }

/-- A dimension summary: one row per distinct key, sorted by profit
descending (`sort_values("Profit", ascending=False)`). -/
def dimSummaryOf (keyOf : BillingLine → String) (low_thr high_thr : ℚ)
    (lines : List BillingLine) : List CodeSummary :=
  sortBy (fun a b => decide (b.profit ≤ a.profit))
    ((sortedKeys (lines.map keyOf)).map
      (dimRow keyOf lines (summaryOf low_thr high_thr lines)))

/-- `chargecode_summary` (audit.py lines 282-315). -/
def chargecodeSummaryOf (low_thr high_thr : ℚ) (lines : List BillingLine) :
    List CodeSummary :=
  dimSummaryOf (·.chargeCode) low_thr high_thr lines

/-- `vendor_summary` (audit.py lines 317-345). -/
def vendorSummaryOf (low_thr high_thr : ℚ) (lines : List BillingLine) :
    List CodeSummary :=
  dimSummaryOf (·.vendor) low_thr high_thr lines

/-- `client_summary` (audit.py lines 243-256): the same aggregation with
a latest-ETA column and no exception pivot, sorted by profit
descending. -/
def clientRow (lines : List BillingLine) (k : String) : ClientSummary :=
  let g := lines.filter (fun l => decide (l.client = k))
  let cost := (g.map (·.cost)).sum
  let sell := (g.map (·.sell)).sum
  { client := k
    totalCost := cost
    totalSell := sell
    lineCount := g.length
    mawbCount := ((g.map (·.mawb)).dedup).length
    latestEta := etaMax g
    profit := sell - cost
    profitMargin := pct (sell - cost) sell }

def clientSummaryOf (lines : List BillingLine) : List ClientSummary :=
  sortBy (fun a b => decide (b.profit ≤ a.profit))
    ((sortedKeys (lines.map (·.client))).map (clientRow lines))

/-! ### The (MAWB, charge code) grain (audit.py lines 347-366) -/

def pairLeb (a b : String × String) : Bool :=
  strLtL a.1.toList b.1.toList ||
  (decide (a.1 = b.1) && strLeb a.2 b.2)

def ccMawbRow (lines : List BillingLine) (k : String × String) : CCMawbRow :=
  let g := lines.filter
    (fun l => decide (l.mawb = k.1) && decide (l.chargeCode = k.2))
  let cost := (g.map (·.cost)).sum
  let sell := (g.map (·.sell)).sum
  { mawb := k.1
    chargeCode := k.2
    client := firstClient g
    vendor := (match g with | [] => "" | l :: _ => l.vendor)
    totalCost := cost
    totalSell := sell
    eta := etaMax g
    profit := sell - cost
    profitMargin := pct (sell - cost) sell }

/-- `cc_mawb`: one row per distinct (MAWB, charge code) pair. -/
def ccMawbOf (lines : List BillingLine) : List CCMawbRow :=
  (sortBy pairLeb ((lines.map (fun l => (l.mawb, l.chargeCode))).dedup)).map
    (ccMawbRow lines)

/-- `chargecode_profit_le0_mawb`: the rows with `profit ≤ 0`, sorted by
profit ascending then sell descending (audit.py lines 362-366). -/
def ccProfitLe0Of (lines : List BillingLine) : List CCMawbRow :=
  sortBy (fun a b => decide (a.profit < b.profit) ||
      (decide (a.profit = b.profit) && decide (b.totalSell ≤ a.totalSell)))
    ((ccMawbOf lines).filter (fun r => decide (r.profit ≤ 0)))

/-! ### KPIs (audit.py lines 368-398) -/

structure Kpi where
  totalMawb : Nat
  closedCount : Nat
  closedPct : ℚ
  openCount : Nat
  revZeroCount : Nat
  costZeroCount : Nat
  bothZeroCount : Nat
  marginExcCount : Nat
  totalCost : ℚ
  totalSell : ℚ
  totalProfit : ℚ
  overallMargin : ℚ
  etaFilledPct : ℚ
  negProfitCount : Nat
  negProfitAmount : ℚ
  negProfitRatio : ℚ
  deriving DecidableEq

/-- The KPI block: counts, sums and the ratios with the code's explicit
zero-denominator guards (`... if total_mawb else 0`,
`... if total_sell_sum else 0`). -/
def kpiOf (label : String) (summary : List MawbSummary) : Kpi :=
  let total := summary.length
  let closed := (summary.filter (fun r => decide (r.classification = "Closed"))).length
  let sellSum := (summary.map (·.totalSell)).sum
  let profitSum := (summary.map (·.profit)).sum
  let negCnt := (summary.filter (fun r => decide (r.profit < 0))).length
  { totalMawb := total
    closedCount := closed
    closedPct := if total = 0 then 0 else (closed : ℚ) / (total : ℚ)
    openCount := total - closed
    revZeroCount := (summary.filter (fun r => decide (r.exceptionType = "Revenue=0"))).length
    costZeroCount := (summary.filter (fun r => decide (r.exceptionType = "Cost=0"))).length
    bothZeroCount := (summary.filter (fun r => decide (r.exceptionType = "Cost=Sell=0"))).length
    marginExcCount := (summary.filter (fun r => decide (r.exceptionType = label))).length
    totalCost := (summary.map (·.totalCost)).sum
    totalSell := sellSum
    totalProfit := profitSum
    overallMargin := if sellSum = 0 then 0 else profitSum / sellSum
    etaFilledPct := if total = 0 then 0
      else ((summary.filter (fun r => r.eta.isSome)).length : ℚ) / (total : ℚ)
    negProfitCount := negCnt
    negProfitAmount := ((summary.filter (fun r => decide (r.profit < 0))).map (·.profit)).sum
    negProfitRatio := if total = 0 then 0 else (negCnt : ℚ) / (total : ℚ) }

/-! ### `run_audit` (audit.py lines 91-459)

The embedding starts where the column resolution ends: `rawLines` is the
billing sheet with the logical fields already bound (amounts coerced,
categoricals defaulted), `keep` is `parse_mawb_list`'s output for the
filter text, and `etaMap` is the already-aggregated per-MAWB latest-ETA
mapping (an empty list when no mapping file is supplied).  Workbook I/O,
sheet scanning, the date parser and the display/export formatting are
outside the model; no claim concerns them. -/

/-- The result object (the raw dataframes of `AuditResult`; the
`display_*` mirrors are string-formatted copies for the UI and are not
modelled). -/
structure AuditResult where
  mawb_keep : List String
  df : List BillingLine
  summary : List MawbSummary
  exceptions : List MawbSummary
  client_summary : List ClientSummary
  margin_outliers : List MawbSummary
  negative_profit : List MawbSummary
  zero_margin : List MawbSummary
  zero_profit : List MawbSummary
  both_zero : List MawbSummary
  sell_zero_only : List MawbSummary
  cost_zero_only : List MawbSummary
  chargecode_summary : List CodeSummary
  vendor_summary : List CodeSummary
  chargecode_profit_le0_mawb : List CCMawbRow
  mawb_not_found : List String
  margin_label : String
  kpi : Kpi

/-- Lines 122-151: normalize the MAWB column, drop lines whose
identifier normalized to empty, and apply the allow-list filter when one
was given. -/
def filterLines (rawLines : List BillingLine) (keep : List String) :
    List BillingLine :=
  let l1 := (rawLines.map
    (fun l => { l with mawb := normalize_mawb_str l.mawb })).filter
      (fun l => decide (l.mawb ≠ ""))
  if keep = [] then l1 else l1.filter (fun l => decide (l.mawb ∈ keep))

/-- Lines 193-199: left-join the ETA mapping on MAWB; unmatched lines
get a missing date. -/
def mergeEta (etaMap : List (String × Option Nat)) (lines : List BillingLine) :
    List BillingLine :=
  lines.map (fun l =>
    { l with eta := match etaMap.find? (fun p => decide (p.1 = l.mawb)) with
        | some p => p.2
        | none => none })

/-- `mawb_not_found = sorted(set(mawb_keep) - found_set)` (line 154). -/
def notFoundOf (keep : List String) (lines : List BillingLine) : List String :=
  if keep = [] then []
  else sortBy strLeb (keep.dedup.filter
    (fun k => decide (k ∉ lines.map (·.mawb))))

/-- The audit pipeline over the abstract inputs. -/
def runAudit (rawLines : List BillingLine) (keep : List String)
    (etaMap : List (String × Option Nat)) (low_thr high_thr : ℚ) : AuditResult :=
  let label := marginLabel low_thr high_thr
  let lines := mergeEta etaMap (filterLines rawLines keep)
  { mawb_keep := keep
    df := lines
    summary := summaryOf low_thr high_thr lines
    exceptions := exceptionsOf low_thr high_thr lines
    client_summary := clientSummaryOf lines
    margin_outliers := marginOutliersOf low_thr high_thr lines
    negative_profit := negativeProfitOf low_thr high_thr lines
    zero_margin := zeroMarginOf low_thr high_thr lines
    zero_profit := zeroProfitOf low_thr high_thr lines
    both_zero := bothZeroOf low_thr high_thr lines
    sell_zero_only := sellZeroOnlyOf low_thr high_thr lines
    cost_zero_only := costZeroOnlyOf low_thr high_thr lines
    chargecode_summary := chargecodeSummaryOf low_thr high_thr lines
    vendor_summary := vendorSummaryOf low_thr high_thr lines
    chargecode_profit_le0_mawb := ccProfitLe0Of lines
    mawb_not_found := notFoundOf keep (filterLines rawLines keep)
    margin_label := label
    kpi := kpiOf label (summaryOf low_thr high_thr lines) }

/-! ### Concrete inputs used by the spec's end-to-end scenario and by
the witnesses below -/

/-- The spec's end-to-end scenario: two billing lines for the same MAWB,
`cost 100 / sell 150` and `cost 50 / sell 0`; no client, charge-code or
vendor column (the code then defaults them to UNKNOWN), no ETA. -/
def c1Lines : List BillingLine :=
  [ { mawb := "999-11111111", cost := 100, sell := 150, client := "UNKNOWN",
      chargeCode := "UNKNOWN", vendor := "UNKNOWN", eta := none },
    { mawb := "999-11111111", cost := 50, sell := 0, client := "UNKNOWN",
      chargeCode := "UNKNOWN", vendor := "UNKNOWN", eta := none } ]

/-- One zero-sell line: its MAWB rolls up to `Revenue=0`. -/
def w2Lines : List BillingLine :=
  [ { mawb := "100-00000001", cost := 50, sell := 0, client := "ACME",
      chargeCode := "FRT", vendor := "V1", eta := none } ]

/-- One in-band line (margin 1/2): its MAWB rolls up to `Closed`. -/
def w3Lines : List BillingLine :=
  [ { mawb := "100-00000002", cost := 100, sell := 200, client := "ACME",
      chargeCode := "FRT", vendor := "V1", eta := none } ]

/-- One loss-making line (profit −100): its MAWB is a negative-profit row. -/
def w4Lines : List BillingLine :=
  [ { mawb := "100-00000003", cost := 200, sell := 100, client := "ACME",
      chargeCode := "FRT", vendor := "V1", eta := none } ]

/-- One line whose MAWB is not in the allow-list used with it. -/
def w9Lines : List BillingLine :=
  [ { mawb := "111-11111111", cost := 10, sell := 20, client := "ACME",
      chargeCode := "FRT", vendor := "V1", eta := none } ]

/-! ## Lemmas -/

theorem mem_insertBy {α : Type} (le : α → α → Bool) (x y : α) (l : List α) :
    y ∈ insertBy le x l ↔ y = x ∨ y ∈ l := by
  induction l with
  | nil => simp [insertBy]
  | cons a t ih =>
    by_cases h : le x a
    · simp [insertBy, h]
    · simp only [insertBy, if_neg h, List.mem_cons, ih]
      tauto

theorem mem_sortBy {α : Type} (le : α → α → Bool) (x : α) (l : List α) :
    x ∈ sortBy le l ↔ x ∈ l := by
  induction l with
  | nil => simp [sortBy]
  | cons a t ih =>
    simp only [sortBy, List.foldr_cons, mem_insertBy, List.mem_cons]
    simp only [sortBy] at ih
    rw [ih]

/-- The fields of a summary row, as `summarize` computes them. -/
theorem summarize_profit (low_thr high_thr : ℚ) (lines : List BillingLine)
    (k : String) :
    (summarize low_thr high_thr lines k).profit =
      (summarize low_thr high_thr lines k).totalSell -
        (summarize low_thr high_thr lines k).totalCost := rfl

theorem summarize_profitMargin (low_thr high_thr : ℚ) (lines : List BillingLine)
    (k : String) :
    (summarize low_thr high_thr lines k).profitMargin =
      pct (summarize low_thr high_thr lines k).profit
        (summarize low_thr high_thr lines k).totalSell := rfl

theorem summarize_classification (low_thr high_thr : ℚ) (lines : List BillingLine)
    (k : String) :
    (summarize low_thr high_thr lines k).classification =
      is_closed low_thr high_thr (summarize low_thr high_thr lines k).totalCost
        (summarize low_thr high_thr lines k).totalSell
        (summarize low_thr high_thr lines k).profitMargin := rfl

theorem summarize_exceptionType (low_thr high_thr : ℚ) (lines : List BillingLine)
    (k : String) :
    (summarize low_thr high_thr lines k).exceptionType =
      exception_type low_thr high_thr (marginLabel low_thr high_thr)
        (summarize low_thr high_thr lines k).totalCost
        (summarize low_thr high_thr lines k).totalSell
        (summarize low_thr high_thr lines k).profitMargin := rfl

theorem pct_of_denom_eq_zero (numer : ℚ) : pct numer 0 = 0 := by
  simp [pct]

theorem pct_of_denom_ne_zero (numer denom : ℚ) (h : denom ≠ 0) :
    pct numer denom = numer / denom := by
  simp [pct, h]

theorem is_closed_eq_closed_iff (low_thr high_thr cost sell pm : ℚ) :
    is_closed low_thr high_thr cost sell pm = "Closed" ↔
      cost > 0 ∧ sell > 0 ∧ low_thr ≤ pm ∧ pm ≤ high_thr := by
  unfold is_closed
  by_cases h1 : cost > 0 ∧ sell > 0
  · rw [if_neg (not_not_intro h1)]
    by_cases h2 : pm < low_thr ∨ pm > high_thr
    · rw [if_pos h2]
      constructor
      · intro h; exact absurd h (by decide)
      · rintro ⟨_, _, hl, hh⟩
        rcases h2 with h2 | h2
        · exact absurd hl (not_le.mpr h2)
        · exact absurd hh (not_le.mpr h2)
    · rw [if_neg h2]
      push_neg at h2
      exact ⟨fun _ => ⟨h1.1, h1.2, h2.1, h2.2⟩, fun _ => rfl⟩
  · rw [if_pos h1]
    constructor
    · intro h; exact absurd h (by decide)
    · rintro ⟨hc, hs, _⟩; exact absurd ⟨hc, hs⟩ h1

theorem is_closed_cases (low_thr high_thr cost sell pm : ℚ) :
    is_closed low_thr high_thr cost sell pm = "Open" ∨
      is_closed low_thr high_thr cost sell pm = "Closed" := by
  unfold is_closed
  split_ifs <;> simp

theorem marginLabel_ne_empty (low_thr high_thr : ℚ) :
    marginLabel low_thr high_thr ≠ "" := by
  unfold marginLabel
  intro h
  have h2 := congrArg String.length h
  rw [String.length_append, String.length_append, String.length_append,
    String.length_append] at h2
  have e1 : ("Margin<" : String).length = 7 := rfl
  have e2 : ("%" : String).length = 1 := rfl
  have e3 : ("" : String).length = 0 := rfl
  omega

/-- The branches of `exception_type` as a pure function. -/
theorem exception_type_cases (low_thr high_thr : ℚ) (label : String)
    (cost sell pm : ℚ) :
    (cost = 0 ∧ sell = 0 →
      exception_type low_thr high_thr label cost sell pm = "Cost=Sell=0") ∧
    (cost ≠ 0 ∧ sell = 0 →
      exception_type low_thr high_thr label cost sell pm = "Revenue=0") ∧
    (cost = 0 ∧ sell ≠ 0 →
      exception_type low_thr high_thr label cost sell pm = "Cost=0") ∧
    (cost ≠ 0 → sell ≠ 0 → pm ≠ 0 → (pm < low_thr ∨ pm > high_thr) →
      exception_type low_thr high_thr label cost sell pm = label) ∧
    (cost ≠ 0 → sell ≠ 0 → ¬(pm ≠ 0 ∧ (pm < low_thr ∨ pm > high_thr)) →
      exception_type low_thr high_thr label cost sell pm = "") ∧
    (label ≠ "" → cost > 0 → sell > 0 → pm = 0 →
      exception_type low_thr high_thr label cost sell pm ≠ label) := by
  unfold exception_type
  refine ⟨?_, ?_, ?_, ?_, ?_, ?_⟩
  · rintro ⟨hc, hs⟩; rw [if_pos ⟨hc, hs⟩]
  · rintro ⟨hc, hs⟩; rw [if_neg (fun hcs => hc hcs.1), if_pos hs]
  · rintro ⟨hc, hs⟩; rw [if_neg (fun hcs => hs hcs.2), if_neg hs, if_pos hc]
  · intro hc hs hpm hband
    rw [if_neg (fun hcs => hc hcs.1), if_neg hs, if_neg hc, if_pos ⟨hpm, hband⟩]
  · intro hc hs hcond
    rw [if_neg (fun hcs => hc hcs.1), if_neg hs, if_neg hc, if_neg hcond]
  · intro hlabel hc hs hpm
    rw [if_neg (fun hcs => (ne_of_gt hc) hcs.1), if_neg (ne_of_gt hs),
      if_neg (ne_of_gt hc), if_neg (fun hx => hx.1 hpm)]
    exact fun h => hlabel h.symm

theorem is_closed_open_of_neg_profit (low_thr high_thr cost sell : ℚ)
    (h0 : 0 ≤ low_thr) (hp : sell - cost < 0) :
    is_closed low_thr high_thr cost sell (pct (sell - cost) sell) = "Open" := by
  unfold is_closed
  by_cases h1 : cost > 0 ∧ sell > 0
  · rw [if_neg (not_not_intro h1)]
    have hpm : pct (sell - cost) sell < 0 := by
      rw [pct_of_denom_ne_zero _ _ (ne_of_gt h1.2)]
      exact div_neg_of_neg_of_pos hp h1.2
    rw [if_pos (Or.inl (lt_of_lt_of_le hpm h0))]
  · rw [if_pos h1]

/-- Field lemmas for the other rollup rows. -/
theorem clientRow_profitMargin (lines : List BillingLine) (k : String) :
    (clientRow lines k).profitMargin =
      pct (clientRow lines k).profit (clientRow lines k).totalSell := rfl

theorem dimRow_profitMargin (keyOf : BillingLine → String)
    (lines : List BillingLine) (summary : List MawbSummary) (k : String) :
    (dimRow keyOf lines summary k).profitMargin =
      pct (dimRow keyOf lines summary k).profit
        (dimRow keyOf lines summary k).totalSell := rfl

theorem ccMawbRow_profitMargin (lines : List BillingLine) (k : String × String) :
    (ccMawbRow lines k).profitMargin =
      pct (ccMawbRow lines k).profit (ccMawbRow lines k).totalSell := rfl

/-! ## The claims -/

/-- C2: every per-identifier summary row's `exception_type` follows the
first-match-wins rules of `exception_type` (audit.py lines 227-239):
both amounts zero gives "Cost=Sell=0"; else zero sell gives "Revenue=0";
else zero cost gives "Cost=0"; else a nonzero margin strictly outside
the band gives the margin label; else the empty string — and a row with
margin exactly 0 and positive amounts is never given the margin label. -/
theorem exception_type_first_match (low_thr high_thr : ℚ)
    (lines : List BillingLine) (r : MawbSummary)
    (hr : r ∈ summaryOf low_thr high_thr lines) :
    (r.totalCost = 0 ∧ r.totalSell = 0 → r.exceptionType = "Cost=Sell=0") ∧
    (r.totalCost ≠ 0 ∧ r.totalSell = 0 → r.exceptionType = "Revenue=0") ∧
    (r.totalCost = 0 ∧ r.totalSell ≠ 0 → r.exceptionType = "Cost=0") ∧
    (r.totalCost ≠ 0 → r.totalSell ≠ 0 → r.profitMargin ≠ 0 →
      (r.profitMargin < low_thr ∨ r.profitMargin > high_thr) →
      r.exceptionType = marginLabel low_thr high_thr) ∧
    (r.totalCost ≠ 0 → r.totalSell ≠ 0 →
      ¬(r.profitMargin ≠ 0 ∧ (r.profitMargin < low_thr ∨ r.profitMargin > high_thr)) →
      r.exceptionType = "") ∧
    (r.totalCost > 0 → r.totalSell > 0 → r.profitMargin = 0 →
      r.exceptionType ≠ marginLabel low_thr high_thr) := by
  unfold summaryOf at hr
  obtain ⟨k, _, rfl⟩ := List.mem_map.mp hr
  rw [summarize_exceptionType]
  have h := exception_type_cases low_thr high_thr (marginLabel low_thr high_thr)
    (summarize low_thr high_thr lines k).totalCost
    (summarize low_thr high_thr lines k).totalSell
    (summarize low_thr high_thr lines k).profitMargin
  exact ⟨h.1, h.2.1, h.2.2.1, h.2.2.2.1, h.2.2.2.2.1,
    h.2.2.2.2.2 (marginLabel_ne_empty low_thr high_thr)⟩

theorem exception_type_first_match_witness :
    (summarize (3/10) (4/5) w2Lines "100-00000001").exceptionType = "Revenue=0" :=
  (exception_type_first_match (3/10) (4/5) w2Lines
    (summarize (3/10) (4/5) w2Lines "100-00000001") (by decide)).2.1 (by decide)

/-- C3: a per-identifier summary row is classified "Closed" iff both
amounts are positive and the margin lies inside the inclusive band;
every row is classified "Open" or "Closed" (audit.py lines 217-225). -/
theorem classification_closed_iff (low_thr high_thr : ℚ)
    (lines : List BillingLine) (r : MawbSummary)
    (hr : r ∈ summaryOf low_thr high_thr lines) :
    (r.classification = "Closed" ↔
      r.totalCost > 0 ∧ r.totalSell > 0 ∧
        low_thr ≤ r.profitMargin ∧ r.profitMargin ≤ high_thr) ∧
    (r.classification = "Open" ∨ r.classification = "Closed") := by
  unfold summaryOf at hr
  obtain ⟨k, _, rfl⟩ := List.mem_map.mp hr
  rw [summarize_classification]
  exact ⟨is_closed_eq_closed_iff _ _ _ _ _, is_closed_cases _ _ _ _ _⟩

theorem classification_closed_iff_witness :
    (summarize (3/10) (4/5) w3Lines "100-00000002").classification = "Closed" :=
  (classification_closed_iff (3/10) (4/5) w3Lines
    (summarize (3/10) (4/5) w3Lines "100-00000002") (by decide)).1.mpr (by decide)

/-- C4: with `0 ≤ low_thr < high_thr ≤ 1`, every row of the
negative-profit bucket is classified "Open" (audit.py lines 217-225 and
264: a loss means either a non-positive amount, which forces Open, or a
negative margin, which lies below the non-negative low threshold). -/
theorem negative_profit_rows_are_open (low_thr high_thr : ℚ)
    (lines : List BillingLine) (r : MawbSummary)
    (h0 : 0 ≤ low_thr) (_h1 : low_thr < high_thr) (_h2 : high_thr ≤ 1)
    (hr : r ∈ negativeProfitOf low_thr high_thr lines) :
    r.classification = "Open" := by
  unfold negativeProfitOf at hr
  rw [mem_sortBy, List.mem_filter] at hr
  obtain ⟨hmem, hneg⟩ := hr
  rw [decide_eq_true_eq] at hneg
  unfold summaryOf at hmem
  obtain ⟨k, _, rfl⟩ := List.mem_map.mp hmem
  rw [summarize_profit] at hneg
  exact is_closed_open_of_neg_profit low_thr high_thr _ _ h0 hneg

theorem negative_profit_rows_are_open_witness :
    (summarize (3/10) (4/5) w4Lines "100-00000003").classification = "Open" :=
  negative_profit_rows_are_open (3/10) (4/5) w4Lines
    (summarize (3/10) (4/5) w4Lines "100-00000003")
    (by decide) (by decide) (by decide) (by decide)

/-- C8: in every rollup — per-identifier, client, charge code, vendor
and (identifier, charge code) — the profit margin equals
profit / total_sell when total_sell is nonzero and is exactly 0 when
total_sell is zero (the `pct` policy, helpers.py lines 39-40, applied at
audit.py lines 215, 255, 293, 328 and 359). -/
theorem margin_zero_denominator_policy (low_thr high_thr : ℚ)
    (lines : List BillingLine) :
    (∀ r ∈ summaryOf low_thr high_thr lines,
      (r.totalSell = 0 → r.profitMargin = 0) ∧
      (r.totalSell ≠ 0 → r.profitMargin = r.profit / r.totalSell)) ∧
    (∀ r ∈ clientSummaryOf lines,
      (r.totalSell = 0 → r.profitMargin = 0) ∧
      (r.totalSell ≠ 0 → r.profitMargin = r.profit / r.totalSell)) ∧
    (∀ r ∈ chargecodeSummaryOf low_thr high_thr lines,
      (r.totalSell = 0 → r.profitMargin = 0) ∧
      (r.totalSell ≠ 0 → r.profitMargin = r.profit / r.totalSell)) ∧
    (∀ r ∈ vendorSummaryOf low_thr high_thr lines,
      (r.totalSell = 0 → r.profitMargin = 0) ∧
      (r.totalSell ≠ 0 → r.profitMargin = r.profit / r.totalSell)) ∧
    (∀ r ∈ ccMawbOf lines,
      (r.totalSell = 0 → r.profitMargin = 0) ∧
      (r.totalSell ≠ 0 → r.profitMargin = r.profit / r.totalSell)) := by
  refine ⟨?_, ?_, ?_, ?_, ?_⟩
  · intro r hr
    obtain ⟨k, _, rfl⟩ := List.mem_map.mp hr
    constructor
    · intro h0; rw [summarize_profitMargin, h0]; exact pct_of_denom_eq_zero _
    · intro h0; rw [summarize_profitMargin, pct_of_denom_ne_zero _ _ h0]
  · intro r hr
    unfold clientSummaryOf at hr
    rw [mem_sortBy] at hr
    obtain ⟨k, _, rfl⟩ := List.mem_map.mp hr
    constructor
    · intro h0; rw [clientRow_profitMargin, h0]; exact pct_of_denom_eq_zero _
    · intro h0; rw [clientRow_profitMargin, pct_of_denom_ne_zero _ _ h0]
  · intro r hr
    unfold chargecodeSummaryOf dimSummaryOf at hr
    rw [mem_sortBy] at hr
    obtain ⟨k, _, rfl⟩ := List.mem_map.mp hr
    constructor
    · intro h0; rw [dimRow_profitMargin, h0]; exact pct_of_denom_eq_zero _
    · intro h0; rw [dimRow_profitMargin, pct_of_denom_ne_zero _ _ h0]
  · intro r hr
    unfold vendorSummaryOf dimSummaryOf at hr
    rw [mem_sortBy] at hr
    obtain ⟨k, _, rfl⟩ := List.mem_map.mp hr
    constructor
    · intro h0; rw [dimRow_profitMargin, h0]; exact pct_of_denom_eq_zero _
    · intro h0; rw [dimRow_profitMargin, pct_of_denom_ne_zero _ _ h0]
  · intro r hr
    unfold ccMawbOf at hr
    obtain ⟨k, _, rfl⟩ := List.mem_map.mp hr
    constructor
    · intro h0; rw [ccMawbRow_profitMargin, h0]; exact pct_of_denom_eq_zero _
    · intro h0; rw [ccMawbRow_profitMargin, pct_of_denom_ne_zero _ _ h0]

/-- C10: the exceptions table is exactly the set of per-identifier
summary rows classified "Open" (audit.py line 241) — every Open row
appears, whatever its exception type, and no Closed row does. -/
theorem exceptions_iff_open (low_thr high_thr : ℚ) (lines : List BillingLine)
    (r : MawbSummary) :
    r ∈ exceptionsOf low_thr high_thr lines ↔
      r ∈ summaryOf low_thr high_thr lines ∧ r.classification = "Open" := by
  unfold exceptionsOf
  simp [List.mem_filter]

/-- C1 (counterexample): in the spec's end-to-end scenario the single
summary row's exception type is NOT the margin label — a zero margin is
excluded from the margin-exception rule by the `pm != 0` conjunct
(audit.py line 235), so the row carries the empty exception type. -/
theorem c1_exception_label_cex :
    ¬ ((runAudit c1Lines [] [] (3/10) (4/5)).summary.map
        MawbSummary.exceptionType =
      [(runAudit c1Lines [] [] (3/10) (4/5)).margin_label]) := by decide

/-- C1 (amended): the scenario's audit yields exactly one summary row
with totals 150/150, profit 0, margin 0, classification "Open" — and
exception type `""`, not the margin label. -/
theorem c1_scenario :
    (runAudit c1Lines [] [] (3/10) (4/5)).summary =
      [{ mawb := "999-11111111", client := "UNKNOWN", totalCost := 150,
         totalSell := 150, lineCount := 2, eta := none, profit := 0,
         profitMargin := 0, classification := "Open", exceptionType := "" }] ∧
    (runAudit c1Lines [] [] (3/10) (4/5)).margin_label =
      "Margin<30% or >80%" :=
  ⟨by decide, by decide⟩

/-- When the filtered billing table is empty, the whole audit result
collapses to empty tables and zero KPIs. -/
theorem runAudit_filter_empty (rawLines : List BillingLine)
    (keep : List String) (etaMap : List (String × Option Nat))
    (low_thr high_thr : ℚ) (h : filterLines rawLines keep = []) :
    runAudit rawLines keep etaMap low_thr high_thr =
      { mawb_keep := keep, df := [], summary := [], exceptions := [],
        client_summary := [], margin_outliers := [], negative_profit := [],
        zero_margin := [], zero_profit := [], both_zero := [],
        sell_zero_only := [], cost_zero_only := [], chargecode_summary := [],
        vendor_summary := [], chargecode_profit_le0_mawb := [],
        mawb_not_found := notFoundOf keep [],
        margin_label := marginLabel low_thr high_thr,
        kpi := kpiOf (marginLabel low_thr high_thr) [] } := by
  unfold runAudit
  rw [h]
  rfl

/-- C9: when the filter leaves zero identifiers, `run_audit` still
produces a complete result: the summary and every bucket view are
empty, and each ratio KPI with a zero denominator is exactly 0 (audit.py
lines 369-398, the `if total_mawb else 0` and `if total_sell_sum else 0`
guards). -/
theorem empty_filter_safe (rawLines : List BillingLine) (keep : List String)
    (etaMap : List (String × Option Nat)) (low_thr high_thr : ℚ)
    (h : filterLines rawLines keep = []) :
    (runAudit rawLines keep etaMap low_thr high_thr).summary = [] ∧
    (runAudit rawLines keep etaMap low_thr high_thr).exceptions = [] ∧
    (runAudit rawLines keep etaMap low_thr high_thr).client_summary = [] ∧
    (runAudit rawLines keep etaMap low_thr high_thr).margin_outliers = [] ∧
    (runAudit rawLines keep etaMap low_thr high_thr).negative_profit = [] ∧
    (runAudit rawLines keep etaMap low_thr high_thr).zero_margin = [] ∧
    (runAudit rawLines keep etaMap low_thr high_thr).zero_profit = [] ∧
    (runAudit rawLines keep etaMap low_thr high_thr).both_zero = [] ∧
    (runAudit rawLines keep etaMap low_thr high_thr).sell_zero_only = [] ∧
    (runAudit rawLines keep etaMap low_thr high_thr).cost_zero_only = [] ∧
    (runAudit rawLines keep etaMap low_thr high_thr).chargecode_summary = [] ∧
    (runAudit rawLines keep etaMap low_thr high_thr).vendor_summary = [] ∧
    (runAudit rawLines keep etaMap low_thr high_thr).chargecode_profit_le0_mawb = [] ∧
    (runAudit rawLines keep etaMap low_thr high_thr).kpi.closedPct = 0 ∧
    (runAudit rawLines keep etaMap low_thr high_thr).kpi.etaFilledPct = 0 ∧
    (runAudit rawLines keep etaMap low_thr high_thr).kpi.overallMargin = 0 ∧
    (runAudit rawLines keep etaMap low_thr high_thr).kpi.negProfitRatio = 0 := by
  rw [runAudit_filter_empty rawLines keep etaMap low_thr high_thr h]
  exact ⟨rfl, rfl, rfl, rfl, rfl, rfl, rfl, rfl, rfl, rfl, rfl, rfl, rfl,
    rfl, rfl, rfl, rfl⟩

theorem empty_filter_safe_witness :
    (runAudit w9Lines ["999-99999999"] [] (3/10) (4/5)).summary = [] :=
  (empty_filter_safe w9Lines ["999-99999999"] [] (3/10) (4/5) (by decide)).1

/-! ### Lemmas about identifier normalization -/

theorem isAln_not_ws (c : Char) (h : isAln c = true) : pyIsWs c = false := by
  simp only [pyIsWs, Bool.or_eq_false_iff, decide_eq_false_iff_not]
  refine ⟨⟨⟨⟨⟨?_, ?_⟩, ?_⟩, ?_⟩, ?_⟩, ?_⟩ <;>
    (rintro rfl; exact absurd h (by decide))

theorem isAln_upper_fix (c : Char) (h : isAln c = true) : pyUpperChar c = c := by
  unfold pyUpperChar
  rw [if_neg]
  rintro ⟨h1, _⟩
  have h' := h
  simp only [isAln, Bool.or_eq_true, Bool.and_eq_true, decide_eq_true_eq] at h'
  rcases h' with hd | ⟨_, hZ⟩
  · have h9 : c ≤ '9' := by
      simp only [Char.isDigit, Bool.and_eq_true, decide_eq_true_eq] at hd
      exact hd.2
    exact absurd (le_trans h1 h9) (by decide)
  · exact absurd (le_trans h1 hZ) (by decide)

theorem isDigit_isAln (c : Char) (h : c.isDigit = true) : isAln c = true := by
  simp [isAln, h]

theorem dropWhile_eq_self_of_false {p : Char → Bool} {l : List Char}
    (h : ∀ c ∈ l, p c = false) : l.dropWhile p = l := by
  cases l with
  | nil => rfl
  | cons a t =>
    rw [List.dropWhile_cons, h a (List.mem_cons_self a t)]
    simp

theorem stripL_eq_self (l : List Char) (h : ∀ c ∈ l, pyIsWs c = false) :
    stripL l = l := by
  unfold stripL
  rw [dropWhile_eq_self_of_false h,
    dropWhile_eq_self_of_false (fun c hc => h c (List.mem_reverse.mp hc))]
  exact List.reverse_reverse l

theorem upperL_eq_self (l : List Char) (h : ∀ c ∈ l, pyUpperChar c = c) :
    upperL l = l := by
  induction l with
  | nil => rfl
  | cons a t ih =>
    have ht : upperL t = t := ih (fun c hc => h c (List.mem_cons_of_mem a hc))
    show pyUpperChar a :: upperL t = a :: t
    rw [h a (List.mem_cons_self a t), ht]

theorem trimUpperL_eq_self (l : List Char) (h : ∀ c ∈ l, isAln c = true) :
    trimUpperL l = l := by
  unfold trimUpperL
  rw [stripL_eq_self l (fun c hc => isAln_not_ws c (h c hc))]
  exact upperL_eq_self l (fun c hc => isAln_upper_fix c (h c hc))

theorem alnumL_eq_self (l : List Char) (h : ∀ c ∈ l, isAln c = true) :
    alnumL l = l := by
  unfold alnumL
  rw [trimUpperL_eq_self l h]
  exact List.filter_eq_self.mpr h

/-- A hyphenated 3+8 all-digit identifier is a fixed point of
normalization. -/
theorem normalizeL_hyphen (a : List Char) (hd : a.all Char.isDigit = true)
    (hl : a.length = 11) :
    normalizeL (a.take 3 ++ '-' :: a.drop 3) = a.take 3 ++ '-' :: a.drop 3 := by
  have hdig : ∀ c ∈ a, c.isDigit = true := List.all_eq_true.mp hd
  have hmem : ∀ c ∈ a.take 3 ++ '-' :: a.drop 3, isAln c = true ∨ c = '-' := by
    intro c hc
    rcases List.mem_append.mp hc with hc | hc
    · exact Or.inl (isDigit_isAln c (hdig c (List.take_subset 3 a hc)))
    · rcases List.mem_cons.mp hc with rfl | hc
      · exact Or.inr rfl
      · exact Or.inl (isDigit_isAln c (hdig c (List.drop_subset 3 a hc)))
  have hws : ∀ c ∈ a.take 3 ++ '-' :: a.drop 3, pyIsWs c = false := by
    intro c hc
    rcases hmem c hc with h | rfl
    · exact isAln_not_ws c h
    · decide
  have hup : ∀ c ∈ a.take 3 ++ '-' :: a.drop 3, pyUpperChar c = c := by
    intro c hc
    rcases hmem c hc with h | rfl
    · exact isAln_upper_fix c h
    · decide
  have htu : trimUpperL (a.take 3 ++ '-' :: a.drop 3) =
      a.take 3 ++ '-' :: a.drop 3 := by
    unfold trimUpperL
    rw [stripL_eq_self _ hws]
    exact upperL_eq_self _ hup
  have hlen12 : (a.take 3 ++ '-' :: a.drop 3).length = 12 := by
    simp only [List.length_append, List.length_cons, List.length_take,
      List.length_drop, hl]
    omega
  have halnum : alnumL (a.take 3 ++ '-' :: a.drop 3) = a := by
    unfold alnumL
    rw [htu, List.filter_append, List.filter_cons]
    have hh : isAln '-' = false := by decide
    rw [hh]
    simp only [Bool.false_eq_true, if_false]
    rw [List.filter_eq_self.mpr
        (fun c hc => isDigit_isAln c (hdig c (List.take_subset 3 a hc))),
      List.filter_eq_self.mpr
        (fun c hc => isDigit_isAln c (hdig c (List.drop_subset 3 a hc)))]
    exact List.take_append_drop 3 a
  have hne : ¬(a.take 3 ++ '-' :: a.drop 3 = [] ∨
      a.take 3 ++ '-' :: a.drop 3 = "NAN".toList ∨
      a.take 3 ++ '-' :: a.drop 3 = "NONE".toList) := by
    rintro (h | h | h) <;>
      (have h2 := congrArg List.length h; rw [hlen12] at h2;
       exact absurd h2 (by decide))
  unfold normalizeL
  rw [htu, halnum, if_neg hne, if_pos ⟨hd, hl⟩]

/-- An already-alphanumeric value that is not an 11- or 12-digit run and
not a NAN/NONE token is a fixed point of normalization. -/
theorem normalizeL_alnum_fix (a : List Char) (hmem : ∀ c ∈ a, isAln c = true)
    (h11 : ¬(a.all Char.isDigit = true ∧ a.length = 11))
    (h12 : ¬(a.all Char.isDigit = true ∧ a.length = 12))
    (hnan : a ≠ "NAN".toList) (hnone : a ≠ "NONE".toList) :
    normalizeL a = a := by
  by_cases hA : a = []
  · subst hA; rfl
  · have hne : ¬(a = [] ∨ a = "NAN".toList ∨ a = "NONE".toList) := by
      rintro (h | h | h)
      exacts [hA h, hnan h, hnone h]
    unfold normalizeL
    rw [trimUpperL_eq_self a hmem, alnumL_eq_self a hmem, if_neg hne,
      if_neg h11, if_neg h12]

/-- Normalization is idempotent except when the first pass produces one
of the literal tokens NAN/NONE, which the second pass maps to the empty
string. -/
theorem normalizeL_idem (l : List Char)
    (h1 : normalizeL l ≠ "NAN".toList) (h2 : normalizeL l ≠ "NONE".toList) :
    normalizeL (normalizeL l) = normalizeL l := by
  by_cases hb : trimUpperL l = [] ∨ trimUpperL l = "NAN".toList ∨
      trimUpperL l = "NONE".toList
  · have hv : normalizeL l = [] := by unfold normalizeL; rw [if_pos hb]
    rw [hv]
    decide
  · have hmem : ∀ c ∈ alnumL l, isAln c = true := by
      intro c hc
      exact (List.mem_filter.mp hc).2
    by_cases h11 : (alnumL l).all Char.isDigit = true ∧ (alnumL l).length = 11
    · have hv : normalizeL l = (alnumL l).take 3 ++ '-' :: (alnumL l).drop 3 := by
        unfold normalizeL; rw [if_neg hb, if_pos h11]
      rw [hv]
      exact normalizeL_hyphen (alnumL l) h11.1 h11.2
    · by_cases h12 : (alnumL l).all Char.isDigit = true ∧ (alnumL l).length = 12
      · have hv : normalizeL l =
            ((alnumL l).drop 1).take 3 ++ '-' :: ((alnumL l).drop 1).drop 3 := by
          unfold normalizeL; rw [if_neg hb, if_neg h11, if_pos h12]
        rw [hv]
        refine normalizeL_hyphen ((alnumL l).drop 1) ?_ ?_
        · exact List.all_eq_true.mpr
            (fun c hc => List.all_eq_true.mp h12.1 c (List.drop_subset 1 _ hc))
        · rw [List.length_drop, h12.2]
      · have hv : normalizeL l = alnumL l := by
          unfold normalizeL; rw [if_neg hb, if_neg h11, if_neg h12]
        rw [hv] at h1 h2 ⊢
        exact normalizeL_alnum_fix (alnumL l) hmem h11 h12 h1 h2

/-- C5: `normalize_mawb` trims and upper-cases, returns `""` for `None`,
blank input or the literal tokens NAN/NONE, strips all non-alphanumeric
characters, hyphenates an all-digit 11-character result as 3+8, drops
the leading digit of an all-digit 12-character result before the same
split, and otherwise returns the stripped alphanumeric string — with the
spec's four concrete examples (helpers.py lines 43-59). -/
theorem normalize_mawb_behaviour (x : String) :
    (normalize_mawb none = "") ∧
    (normalize_mawb (some "  abc ") = "ABC") ∧
    (normalize_mawb (some "99934022122") = "999-34022122") ∧
    (normalize_mawb (some "999-34022122") = "999-34022122") ∧
    (trimUpperL x.toList = [] ∨ trimUpperL x.toList = "NAN".toList ∨
        trimUpperL x.toList = "NONE".toList →
      normalize_mawb (some x) = "") ∧
    (¬(trimUpperL x.toList = [] ∨ trimUpperL x.toList = "NAN".toList ∨
        trimUpperL x.toList = "NONE".toList) →
      ((alnumL x.toList).all Char.isDigit = true ∧ (alnumL x.toList).length = 11 →
        normalize_mawb (some x) =
          ⟨(alnumL x.toList).take 3 ++ '-' :: (alnumL x.toList).drop 3⟩) ∧
      ((alnumL x.toList).all Char.isDigit = true ∧ (alnumL x.toList).length = 12 →
        normalize_mawb (some x) =
          ⟨((alnumL x.toList).drop 1).take 3 ++ '-' ::
            ((alnumL x.toList).drop 1).drop 3⟩) ∧
      (¬((alnumL x.toList).all Char.isDigit = true ∧
          (alnumL x.toList).length = 11) →
       ¬((alnumL x.toList).all Char.isDigit = true ∧
          (alnumL x.toList).length = 12) →
        normalize_mawb (some x) = ⟨alnumL x.toList⟩)) := by
  refine ⟨by decide, by decide, by decide, by decide, ?_, ?_⟩
  · intro hb
    show (⟨normalizeL x.toList⟩ : String) = ""
    unfold normalizeL
    rw [if_pos hb]
  · intro hb
    refine ⟨?_, ?_, ?_⟩
    · intro h11
      show (⟨normalizeL x.toList⟩ : String) =
        ⟨(alnumL x.toList).take 3 ++ '-' :: (alnumL x.toList).drop 3⟩
      unfold normalizeL
      rw [if_neg hb, if_pos h11]
    · intro h12
      have hn11 : ¬((alnumL x.toList).all Char.isDigit = true ∧
          (alnumL x.toList).length = 11) := by
        rintro ⟨_, hlen⟩
        rw [hlen] at h12
        exact absurd h12.2 (by decide)
      show (⟨normalizeL x.toList⟩ : String) =
        ⟨((alnumL x.toList).drop 1).take 3 ++ '-' ::
          ((alnumL x.toList).drop 1).drop 3⟩
      unfold normalizeL
      rw [if_neg hb, if_neg hn11, if_pos h12]
    · intro h11 h12
      show (⟨normalizeL x.toList⟩ : String) = ⟨alnumL x.toList⟩
      unfold normalizeL
      rw [if_neg hb, if_neg h11, if_neg h12]

/-- C6 (counterexample): normalization is not idempotent — `"NA N"`
normalizes to `"NAN"`, which is one of the blank-out tokens, so a second
pass yields `""` instead. -/
theorem normalize_mawb_not_idempotent_cex :
    normalize_mawb (some (normalize_mawb (some "NA N"))) ≠
      normalize_mawb (some "NA N") := by decide

/-- C6 (amended): normalization is idempotent for every input whose
normalized form is not one of the literal tokens `"NAN"`/`"NONE"`; for
those, a second pass returns `""` (helpers.py lines 43-59: the token
check fires on the first pass's output). -/
theorem normalize_mawb_idempotent_away_from_tokens (x : String)
    (h1 : normalize_mawb (some x) ≠ "NAN")
    (h2 : normalize_mawb (some x) ≠ "NONE") :
    normalize_mawb (some (normalize_mawb (some x))) = normalize_mawb (some x) := by
  have hl1 : normalizeL x.toList ≠ "NAN".toList :=
    fun h => h1 (congrArg String.mk h)
  have hl2 : normalizeL x.toList ≠ "NONE".toList :=
    fun h => h2 (congrArg String.mk h)
  exact congrArg String.mk (normalizeL_idem x.toList hl1 hl2)

theorem normalize_mawb_idempotent_witness :
    normalize_mawb (some (normalize_mawb (some "  abc "))) =
      normalize_mawb (some "  abc ") :=
  normalize_mawb_idempotent_away_from_tokens "  abc " (by decide) (by decide)

/-- C7 (counterexample): with two table columns that normalize to the
same name, the resolver does NOT return the first one in column order —
the header dict keeps the last column written for a normalized key. -/
theorem find_first_col_first_column_cex :
    (colsMatching ["a b", "a_b"] "ab").head? = some "a b" ∧
    find_first_col ["a b", "a_b"] ["ab"] ≠ "a b" := by decide

/-- C7 (amended): `find_first_col` iterates candidates in list order;
the first candidate some table column matches under `norm_colname` wins,
and among the matching table columns the LAST one in column order is
returned (dict-comprehension overwrite); with no match at all the empty
sentinel is returned instead of an error. -/
theorem find_first_col_resolution (cols cands : List String) :
    ((∀ c ∈ cands, colsMatching cols c = []) → find_first_col cols cands = "") ∧
    (∀ pre c rest, cands = pre ++ c :: rest →
      (∀ p ∈ pre, colsMatching cols p = []) →
      colsMatching cols c ≠ [] →
      (colsMatching cols c).getLast? = some (find_first_col cols cands)) := by
  constructor
  · intro h
    induction cands with
    | nil => rfl
    | cons cand rest ih =>
      show (match (colsMatching cols cand).getLast? with
        | some v => v
        | none => find_first_col cols rest) = ""
      rw [h cand (List.mem_cons_self cand rest)]
      exact ih (fun c hc => h c (List.mem_cons_of_mem cand hc))
  · intro pre c rest hcands hpre hc
    subst hcands
    induction pre with
    | nil =>
      obtain ⟨v, hv⟩ : ∃ v, (colsMatching cols c).getLast? = some v := by
        cases hlast : (colsMatching cols c).getLast? with
        | none => exact absurd (List.getLast?_eq_none_iff.mp hlast) hc
        | some v => exact ⟨v, rfl⟩
      rw [hv]
      show some v = some (match (colsMatching cols c).getLast? with
        | some v => v
        | none => find_first_col cols rest)
      rw [hv]
    | cons p pre' ih =>
      have hp : colsMatching cols p = [] :=
        hpre p (List.mem_cons_self p pre')
      have step : find_first_col cols (p :: (pre' ++ c :: rest)) =
          find_first_col cols (pre' ++ c :: rest) := by
        show (match (colsMatching cols p).getLast? with
          | some v => v
          | none => find_first_col cols (pre' ++ c :: rest)) =
          find_first_col cols (pre' ++ c :: rest)
        rw [hp]
        rfl
      rw [List.cons_append, step]
      exact ih (fun q hq => hpre q (List.mem_cons_of_mem p hq))

theorem find_first_col_resolution_witness :
    (colsMatching ["Master AWB", "Cost"] "Master AWB").getLast? =
      some (find_first_col ["Master AWB", "Cost"] ["MAWB", "Master AWB"]) :=
  (find_first_col_resolution ["Master AWB", "Cost"]
    ["MAWB", "Master AWB"]).2 ["MAWB"] "Master AWB" []
    (by decide) (by decide) (by decide)

end MawbAudit
